import Mathlib

/-!
Shallow embedding of the pong game core.

The Rust sources embedded here are physics.rs (Point, Velocity), paddle.rs
(Paddle and its clamped movement), ball.rs (Ball integration, wall bounce and
paddle bounce), game.rs (Game state, seat assignment, scoring and serving),
events.rs (the quit-key recogniser) and the input/tick-loop fragments of
server.rs.  The f32 coordinates are modelled by exact rationals, and
Instant-based time by a rational clock value passed explicitly to every
operation that reads the clock; a Duration is a rational number of seconds.
-/

namespace Pong

/-- Embeds the struct Point of physics.rs: a coordinate pair in [0,1]. -/
structure Point where
  x : ℚ
  y : ℚ
deriving DecidableEq

/-- Point.CENTER of physics.rs: the center (0.5, 0.5) of the field. -/
def Point.CENTER : Point := ⟨1/2, 1/2⟩

/-- Embeds the struct Velocity of physics.rs. -/
structure Velocity where
  x : ℚ
  y : ℚ
deriving DecidableEq

/-- Velocity.VALID_Y of physics.rs: the seven legal vertical speeds. -/
def Velocity.VALID_Y : List ℚ := [-69/100, -46/100, -23/100, 0, 23/100, 46/100, 69/100]

/-- Embeds the struct Paddle of paddle.rs. -/
structure Paddle where
  pos : Point
deriving DecidableEq

/-- Paddle.HEIGHT of paddle.rs. -/
def Paddle.HEIGHT : ℚ := 15/100

/-- Paddle.MOVE_DELTA of paddle.rs. -/
def Paddle.MOVE_DELTA : ℚ := 25/1000

/-- Paddle.new of paddle.rs. -/
def Paddle.new (x y : ℚ) : Paddle := ⟨⟨x, y⟩⟩

/-- Paddle.move_up of paddle.rs: y := max (y - MOVE_DELTA) (HEIGHT/2). -/
def Paddle.move_up (p : Paddle) : Paddle :=
  ⟨⟨p.pos.x, max (p.pos.y - Paddle.MOVE_DELTA) (Paddle.HEIGHT / 2)⟩⟩

/-- Paddle.move_down of paddle.rs: y := min (y + MOVE_DELTA) (1 - HEIGHT/2). -/
def Paddle.move_down (p : Paddle) : Paddle :=
  ⟨⟨p.pos.x, min (p.pos.y + Paddle.MOVE_DELTA) (1 - Paddle.HEIGHT / 2)⟩⟩

/-- The rounding used by f32::round in ball.rs: nearest integer, ties away
from zero (for negative q this is the ceiling of q - 1/2, written through
the floor of the mirrored value). -/
def roundHalfAway (q : ℚ) : ℤ := if 0 ≤ q then ⌊q + 1/2⌋ else -⌊-q + 1/2⌋

/-- Embeds the struct Ball of ball.rs. -/
structure Ball where
  pos : Point
  vel : Velocity
deriving DecidableEq

/-- Ball.DEFAULT_INITIAL_VELOCITY of ball.rs. -/
def Ball.DEFAULT_INITIAL_VELOCITY : Velocity := ⟨26/100, -23/100⟩

/-- Ball.new of ball.rs. -/
def Ball.new : Ball := ⟨Point.CENTER, Ball.DEFAULT_INITIAL_VELOCITY⟩

/-- Ball.serve of ball.rs: reset the position to the center, keep the
velocity. -/
def Ball.serve (b : Ball) : Ball := { b with pos := Point.CENTER }

/-- The first two lines of Ball.update in ball.rs: pos += vel * dt. -/
def Ball.integrate (b : Ball) (dt : ℚ) : Ball :=
  { b with pos := ⟨b.pos.x + b.vel.x * dt, b.pos.y + b.vel.y * dt⟩ }

/-- The top/bottom wall bounce step of Ball.update in ball.rs. -/
def Ball.wallBounce (b : Ball) : Ball :=
  if b.pos.y < 0 then ⟨⟨b.pos.x, -b.pos.y⟩, ⟨b.vel.x, -b.vel.y⟩⟩
  else if b.pos.y > 1 then ⟨⟨b.pos.x, 2 - b.pos.y⟩, ⟨b.vel.x, -b.vel.y⟩⟩
  else b

/-- The angle computed on a paddle hit in ball.rs:
(ball.y - paddle.y) / (HEIGHT / 2). -/
def bounceAngle (ballY paddleY : ℚ) : ℚ := (ballY - paddleY) / (Paddle.HEIGHT / 2)

/-- The table index computed on a paddle hit in ball.rs:
round (angle * 3) + 3. -/
def bounceIndex (ballY paddleY : ℚ) : ℤ := roundHalfAway (bounceAngle ballY paddleY * 3) + 3

/-- The new vertical velocity selected on a paddle hit in ball.rs:
VALID_Y[round (angle * 3) + 3]. -/
def bounceVelY (ballY paddleY : ℚ) : ℚ :=
  Velocity.VALID_Y.getD (bounceIndex ballY paddleY).toNat 0

/-- The paddle-hit test of ball.rs:
paddle.y - HEIGHT/2 < ball.y < paddle.y + HEIGHT/2. -/
def paddleHit (p : Paddle) (ballY : ℚ) : Prop :=
  p.pos.y - Paddle.HEIGHT / 2 < ballY ∧ ballY < p.pos.y + Paddle.HEIGHT / 2

instance (p : Paddle) (ballY : ℚ) : Decidable (paddleHit p ballY) :=
  inferInstanceAs (Decidable (_ ∧ _))

/-- The paddle bounce step of Ball.update in ball.rs.  The left branch fires
only when pos.x < 0 strictly, the right branch only when pos.x > 1
strictly. -/
def Ball.paddleBounce (b : Ball) (player1 player2 : Paddle) : Ball :=
  if b.pos.x < 0 then
    if paddleHit player1 b.pos.y then
      ⟨⟨-b.pos.x, b.pos.y⟩, ⟨-b.vel.x, bounceVelY b.pos.y player1.pos.y⟩⟩
    else b
  else if b.pos.x > 1 ∧ paddleHit player2 b.pos.y then
    ⟨⟨2 - b.pos.x, b.pos.y⟩, ⟨-b.vel.x, bounceVelY b.pos.y player2.pos.y⟩⟩
  else b

/-- Ball.update of ball.rs: integrate, then wall bounce, then paddle
bounce, exactly in the order the statements appear in the source. -/
def Ball.update (b : Ball) (dt : ℚ) (player1 player2 : Paddle) : Ball :=
  ((b.integrate dt).wallBounce).paddleBounce player1 player2

/-- Embeds the struct Game of game.rs.  clients is the two-seat array
[Option usize; 2]; the Rust score fields score.0 and score.1 are the first
and second components of the pair. -/
structure Game where
  ball : Ball
  left_paddle : Paddle
  right_paddle : Paddle
  score : ℕ × ℕ
  serve_time : Option ℚ
  last_update : Option ℚ
  clients : Option ℕ × Option ℕ
deriving DecidableEq

/-- Game.SERVE_DURATION of game.rs: 1500 ms, as seconds. -/
def Game.SERVE_DURATION : ℚ := 3/2

/-- Game.new of game.rs. -/
def Game.new : Game :=
  { ball := Ball.new
    left_paddle := Paddle.new 0 (1/2)
    right_paddle := Paddle.new 1 (1/2)
    score := (0, 0)
    serve_time := none
    last_update := none
    clients := (none, none) }

/-- Game.serve of game.rs: recenter the ball, record the serve instant,
clear last_update. -/
def Game.serve (g : Game) (now : ℚ) : Game :=
  { g with ball := g.ball.serve, serve_time := some now, last_update := none }

/-- The guard at the top of Game.update in game.rs:
serve_time.map_or(true, elapsed < SERVE_DURATION). -/
def Game.serveHold (g : Game) (now : ℚ) : Bool :=
  match g.serve_time with
  | none => true
  | some t => decide (now - t < Game.SERVE_DURATION)

/-- The delta time used by Game.update in game.rs:
last_update.map_or(Duration::ZERO, elapsed). -/
def Game.tickDt (g : Game) (now : ℚ) : ℚ :=
  match g.last_update with
  | none => 0
  | some t => now - t

/-- The ball produced by the physics step of Game.update in game.rs. -/
def Game.tickBall (g : Game) (now : ℚ) : Ball :=
  g.ball.update (g.tickDt now) g.left_paddle g.right_paddle

/-- Game.update of game.rs: return early while the serve hold is active,
otherwise step the ball and score a point when the ball left the field. -/
def Game.update (g : Game) (now : ℚ) : Game :=
  if g.serveHold now then g
  else
    let b := g.tickBall now
    let g1 : Game := { g with last_update := some now, ball := b }
    if b.pos.x < 0 then
      Game.serve { g1 with score := (g1.score.1, g1.score.2 + 1) } now
    else if b.pos.x > 1 then
      Game.serve { g1 with score := (g1.score.1 + 1, g1.score.2) } now
    else g1

/-- The reset-and-serve block at the end of Game.connect_player in game.rs,
run after a seat was assigned: when both seats are occupied the score is
reset and the ball is served. -/
def Game.afterConnect (g : Game) (now : ℚ) : Game :=
  if g.clients.1.isSome && g.clients.2.isSome then
    Game.serve { g with score := (0, 0) } now
  else g

/-- Game.connect_player of game.rs: fill seat 0, else seat 1, else bail with
the Game is full error; the second component mirrors the returned Result. -/
def Game.connect_player (g : Game) (client_id : ℕ) (now : ℚ) :
    Game × Except String Unit :=
  if g.clients.1 = none then
    (Game.afterConnect { g with clients := (some client_id, g.clients.2) } now, .ok ())
  else if g.clients.2 = none then
    (Game.afterConnect { g with clients := (g.clients.1, some client_id) } now, .ok ())
  else
    (g, .error "Game is full")

/-- Game.disconnect_player of game.rs: clear the first seat that holds the
id. -/
def Game.disconnect_player (g : Game) (client_id : ℕ) : Game :=
  if g.clients.1 = some client_id then { g with clients := (none, g.clients.2) }
  else if g.clients.2 = some client_id then { g with clients := (g.clients.1, none) }
  else g

/-- Game.move_up of game.rs: route to the paddle of the seat holding the id,
seat 0 checked first. -/
def Game.move_up (g : Game) (client_id : ℕ) : Game :=
  if g.clients.1 = some client_id then { g with left_paddle := g.left_paddle.move_up }
  else if g.clients.2 = some client_id then { g with right_paddle := g.right_paddle.move_up }
  else g

/-- Game.move_down of game.rs: route to the paddle of the seat holding the
id, seat 0 checked first. -/
def Game.move_down (g : Game) (client_id : ℕ) : Game :=
  if g.clients.1 = some client_id then { g with left_paddle := g.left_paddle.move_down }
  else if g.clients.2 = some client_id then { g with right_paddle := g.right_paddle.move_down }
  else g

/-- A single paddle input event, used to talk about sequences of moves. -/
inductive PaddleMove where
  | up
  | down
deriving DecidableEq

/-- Apply one input event to a paddle via the paddle.rs movement code. -/
def Paddle.applyMove (p : Paddle) : PaddleMove → Paddle
  | .up => p.move_up
  | .down => p.move_down

/-- Apply a finite sequence of input events to a paddle. -/
def Paddle.applyMoves (p : Paddle) (ms : List PaddleMove) : Paddle :=
  ms.foldl Paddle.applyMove p

/-- Models the body of the tick loop in AppServer.run of server.rs:
for terminal in targets, game.draw(terminal).unwrap().  The input records,
per attached render target in iteration order, whether Game.draw would
succeed on it.  The first component is how many targets a draw was attempted
on; the second is whether the tick task survives the pass (unwrap of an Err
panics the spawned task, aborting the loop). -/
def tickDraw : List Bool → ℕ × Bool
  | [] => (0, true)
  | ok :: rest =>
    if ok then ((tickDraw rest).1 + 1, (tickDraw rest).2)
    else (1, false)

/-- The action the data handler of server.rs takes for one inbound byte
string. -/
inductive DataAction where
  | closeChannel
  | gameMoveUp
  | gameMoveDown
  | ignore
deriving DecidableEq

/-- Models the match in AppHandler.data of server.rs: the byte string q
closes the channel, w moves up, s moves down, everything else falls to the
wildcard arm and is ignored.  Bytes are natural numbers; 113, 119, 115 are
the ASCII codes of q, w, s. -/
def dataAction (data : List ℕ) : DataAction :=
  if data = [113] then .closeChannel
  else if data = [119] then .gameMoveUp
  else if data = [115] then .gameMoveDown
  else .ignore

/-- The effect of AppHandler.data of server.rs on the shared game state:
only the w and s arms touch the game; closing the channel and the wildcard
arm leave it untouched. -/
def dataGameEffect (g : Game) (client_id : ℕ) (data : List ℕ) : Game :=
  match dataAction data with
  | .gameMoveUp => g.move_up client_id
  | .gameMoveDown => g.move_down client_id
  | _ => g

/-- Key codes as matched by events.rs. -/
inductive KeyCode where
  | char (c : Char)
  | esc
  | up
  | down
  | other
deriving DecidableEq

/-- Modifier state as matched by events.rs. -/
inductive KeyModifiers where
  | NONE
  | CONTROL
  | SHIFT
  | ALT
deriving DecidableEq

/-- is_quit_key of events.rs: Ctrl-q, plain Esc, or Ctrl-c. -/
def is_quit_key (code : KeyCode) (modifiers : KeyModifiers) : Bool :=
  match code, modifiers with
  | .char c, .CONTROL => c = 'q' || c = 'c'
  | .esc, .NONE => true
  | _, _ => false

/-! ## Helper lemmas -/

theorem Paddle.move_up_x (p : Paddle) : p.move_up.pos.x = p.pos.x := rfl

theorem Paddle.move_down_x (p : Paddle) : p.move_down.pos.x = p.pos.x := rfl

theorem Paddle.applyMove_x (p : Paddle) (m : PaddleMove) :
    (p.applyMove m).pos.x = p.pos.x := by
  cases m <;> rfl

theorem Paddle.applyMove_range (p : Paddle) (m : PaddleMove)
    (h1 : Paddle.HEIGHT / 2 ≤ p.pos.y) (h2 : p.pos.y ≤ 1 - Paddle.HEIGHT / 2) :
    Paddle.HEIGHT / 2 ≤ (p.applyMove m).pos.y ∧
      (p.applyMove m).pos.y ≤ 1 - Paddle.HEIGHT / 2 := by
  have hδ : (0 : ℚ) ≤ Paddle.MOVE_DELTA := by norm_num [Paddle.MOVE_DELTA]
  have hH : Paddle.HEIGHT / 2 ≤ 1 - Paddle.HEIGHT / 2 := by norm_num [Paddle.HEIGHT]
  cases m with
  | up =>
    refine ⟨le_max_right _ _, max_le (by linarith) hH⟩
  | down =>
    exact ⟨le_min (by linarith) hH, min_le_right _ _⟩

theorem Paddle.applyMoves_range (ms : List PaddleMove) (p : Paddle)
    (h1 : Paddle.HEIGHT / 2 ≤ p.pos.y) (h2 : p.pos.y ≤ 1 - Paddle.HEIGHT / 2) :
    (Paddle.HEIGHT / 2 ≤ (p.applyMoves ms).pos.y ∧
      (p.applyMoves ms).pos.y ≤ 1 - Paddle.HEIGHT / 2) ∧
      (p.applyMoves ms).pos.x = p.pos.x := by
  induction ms generalizing p with
  | nil => exact ⟨⟨h1, h2⟩, rfl⟩
  | cons m ms ih =>
    obtain ⟨hr1, hr2⟩ := Paddle.applyMove_range p m h1 h2
    obtain ⟨hrange, hx⟩ := ih (p.applyMove m) hr1 hr2
    exact ⟨hrange, by rw [Paddle.applyMoves, List.foldl_cons, ← Paddle.applyMoves, hx,
      Paddle.applyMove_x]⟩

theorem Ball.integrate_vel (b : Ball) (dt : ℚ) : (b.integrate dt).vel = b.vel := rfl

theorem Ball.wallBounce_x (b : Ball) : b.wallBounce.pos.x = b.pos.x := by
  unfold Ball.wallBounce
  split_ifs <;> rfl

theorem Ball.wallBounce_vel_x (b : Ball) : b.wallBounce.vel.x = b.vel.x := by
  unfold Ball.wallBounce
  split_ifs <;> rfl

theorem Ball.wallBounce_of_lt (b : Ball) (h : b.pos.y < 0) :
    b.wallBounce = ⟨⟨b.pos.x, -b.pos.y⟩, ⟨b.vel.x, -b.vel.y⟩⟩ := by
  unfold Ball.wallBounce
  rw [if_pos h]

theorem Ball.wallBounce_of_gt (b : Ball) (h : b.pos.y > 1) :
    b.wallBounce = ⟨⟨b.pos.x, 2 - b.pos.y⟩, ⟨b.vel.x, -b.vel.y⟩⟩ := by
  unfold Ball.wallBounce
  rw [if_neg (by linarith), if_pos h]

theorem Ball.wallBounce_of_mid (b : Ball) (h1 : ¬b.pos.y < 0) (h2 : ¬b.pos.y > 1) :
    b.wallBounce = b := by
  unfold Ball.wallBounce
  rw [if_neg h1, if_neg h2]

theorem Ball.paddleBounce_pos_y (b : Ball) (p1 p2 : Paddle) :
    (b.paddleBounce p1 p2).pos.y = b.pos.y := by
  unfold Ball.paddleBounce
  split_ifs <;> rfl

theorem Ball.paddleBounce_left (b : Ball) (p1 p2 : Paddle)
    (hx : b.pos.x < 0) (hhit : paddleHit p1 b.pos.y) :
    b.paddleBounce p1 p2 =
      ⟨⟨-b.pos.x, b.pos.y⟩, ⟨-b.vel.x, bounceVelY b.pos.y p1.pos.y⟩⟩ := by
  unfold Ball.paddleBounce
  rw [if_pos hx, if_pos hhit]

theorem roundHalfAway_bounds (q : ℚ) (h1 : -3 < q) (h2 : q < 3) :
    -3 ≤ roundHalfAway q ∧ roundHalfAway q ≤ 3 := by
  unfold roundHalfAway
  split_ifs with h0
  · constructor
    · have : (0 : ℤ) ≤ ⌊q + 1/2⌋ := by
        rw [Int.le_floor]
        push_cast
        linarith
      omega
    · have : ⌊q + 1/2⌋ < 4 := by
        rw [Int.floor_lt]
        push_cast
        linarith
      omega
  · push_neg at h0
    constructor
    · have : ⌊-q + 1/2⌋ < 4 := by
        rw [Int.floor_lt]
        push_cast
        linarith
      omega
    · have : (0 : ℤ) ≤ ⌊-q + 1/2⌋ := by
        rw [Int.le_floor]
        push_cast
        linarith
      omega

theorem bounceIndex_bounds (ballY paddleY : ℚ)
    (h1 : paddleY - Paddle.HEIGHT / 2 < ballY) (h2 : ballY < paddleY + Paddle.HEIGHT / 2) :
    0 ≤ bounceIndex ballY paddleY ∧ bounceIndex ballY paddleY ≤ 6 := by
  have hH : (0 : ℚ) < Paddle.HEIGHT / 2 := by norm_num [Paddle.HEIGHT]
  have ha1 : bounceAngle ballY paddleY < 1 := by
    rw [bounceAngle, div_lt_one hH]
    linarith
  have ha2 : -1 < bounceAngle ballY paddleY := by
    rw [bounceAngle, lt_div_iff₀ hH]
    linarith
  have hb := roundHalfAway_bounds (bounceAngle ballY paddleY * 3) (by linarith) (by linarith)
  unfold bounceIndex
  omega

/-! ## Claim theorems -/

/-- C4: for every finite sequence of move_up and move_down calls applied to
a paddle whose y starts inside [HEIGHT/2, 1 - HEIGHT/2] = [0.075, 0.925],
the y coordinate stays inside that interval after every call, each call
moves y by the fixed delta 0.025 toward the requested direction unless the
clamp bound is reached, and the x coordinate is never modified. -/
theorem C4_paddle_clamp (p : Paddle) (ms : List PaddleMove)
    (h1 : Paddle.HEIGHT / 2 ≤ p.pos.y) (h2 : p.pos.y ≤ 1 - Paddle.HEIGHT / 2) :
    (Paddle.HEIGHT / 2 ≤ (p.applyMoves ms).pos.y ∧
      (p.applyMoves ms).pos.y ≤ 1 - Paddle.HEIGHT / 2) ∧
    (p.applyMoves ms).pos.x = p.pos.x ∧
    Paddle.HEIGHT = 15/100 ∧ Paddle.MOVE_DELTA = 25/1000 ∧
    (∀ q : Paddle,
      (q.move_up.pos.y = q.pos.y - Paddle.MOVE_DELTA ∨ q.move_up.pos.y = Paddle.HEIGHT / 2) ∧
      (Paddle.HEIGHT / 2 ≤ q.pos.y - Paddle.MOVE_DELTA →
        q.move_up.pos.y = q.pos.y - Paddle.MOVE_DELTA) ∧
      q.move_up.pos.x = q.pos.x) ∧
    (∀ q : Paddle,
      (q.move_down.pos.y = q.pos.y + Paddle.MOVE_DELTA ∨
        q.move_down.pos.y = 1 - Paddle.HEIGHT / 2) ∧
      (q.pos.y + Paddle.MOVE_DELTA ≤ 1 - Paddle.HEIGHT / 2 →
        q.move_down.pos.y = q.pos.y + Paddle.MOVE_DELTA) ∧
      q.move_down.pos.x = q.pos.x) := by
  refine ⟨(Paddle.applyMoves_range ms p h1 h2).1, (Paddle.applyMoves_range ms p h1 h2).2,
    by norm_num [Paddle.HEIGHT], by norm_num [Paddle.MOVE_DELTA], fun q => ⟨?_, ?_, rfl⟩,
    fun q => ⟨?_, ?_, rfl⟩⟩
  · rcases max_cases (q.pos.y - Paddle.MOVE_DELTA) (Paddle.HEIGHT / 2) with ⟨hm, _⟩ | ⟨hm, _⟩ <;>
      [exact Or.inl hm; exact Or.inr hm]
  · intro hle
    exact max_eq_left hle
  · rcases min_cases (q.pos.y + Paddle.MOVE_DELTA) (1 - Paddle.HEIGHT / 2) with ⟨hm, _⟩ | ⟨hm, _⟩ <;>
      [exact Or.inl hm; exact Or.inr hm]
  · intro hle
    exact min_eq_left hle

/-- C4 witness: the sequence [up, up, down] from the centered paddle. -/
theorem C4_witness :
    Paddle.HEIGHT / 2 ≤ ((Paddle.new 0 (1/2)).applyMoves [.up, .up, .down]).pos.y ∧
      ((Paddle.new 0 (1/2)).applyMoves [.up, .up, .down]).pos.y ≤ 1 - Paddle.HEIGHT / 2 :=
  (C4_paddle_clamp (Paddle.new 0 (1/2)) [.up, .up, .down]
    (by norm_num [Paddle.new, Paddle.HEIGHT])
    (by norm_num [Paddle.new, Paddle.HEIGHT])).1

/-- C6: in every Ball.update, after the integration step, a crossing of the
bottom wall replaces the integrated y by its negation and negates the
vertical velocity; a crossing of the top wall replaces y by two minus the
integrated y and negates the vertical velocity; at most one of the two
reflections fires, and a reflection preserves the absolute vertical speed
while flipping its sign exactly once. -/
theorem C6_wall_reflection (b : Ball) (dt : ℚ) (p1 p2 : Paddle) :
    ((b.integrate dt).pos.y < 0 →
      (b.update dt p1 p2).pos.y = -(b.integrate dt).pos.y ∧
      ((b.integrate dt).wallBounce).vel.y = -(b.integrate dt).vel.y) ∧
    ((b.integrate dt).pos.y > 1 →
      (b.update dt p1 p2).pos.y = 2 - (b.integrate dt).pos.y ∧
      ((b.integrate dt).wallBounce).vel.y = -(b.integrate dt).vel.y) ∧
    ¬((b.integrate dt).pos.y < 0 ∧ (b.integrate dt).pos.y > 1) ∧
    (((b.integrate dt).pos.y < 0 ∨ (b.integrate dt).pos.y > 1) →
      |((b.integrate dt).wallBounce).vel.y| = |(b.integrate dt).vel.y|) := by
  refine ⟨fun h => ?_, fun h => ?_, fun h => by linarith [h.1, h.2], fun h => ?_⟩
  · rw [Ball.update, Ball.wallBounce_of_lt _ h, Ball.paddleBounce_pos_y]
    exact ⟨rfl, rfl⟩
  · rw [Ball.update, Ball.wallBounce_of_gt _ h, Ball.paddleBounce_pos_y]
    exact ⟨rfl, rfl⟩
  · rcases h with h | h
    · rw [Ball.wallBounce_of_lt _ h]
      exact abs_neg _
    · rw [Ball.wallBounce_of_gt _ h]
      exact abs_neg _

/-- C6 witness: a ball integrated to y = -1/4 is reflected to y = 1/4 with
negated vertical velocity. -/
theorem C6_witness :
    (Ball.update ⟨⟨1/2, -1/4⟩, ⟨26/100, -23/100⟩⟩ 0 (Paddle.new 0 (1/2))
      (Paddle.new 1 (1/2))).pos.y =
        -((Ball.integrate ⟨⟨1/2, -1/4⟩, ⟨26/100, -23/100⟩⟩ 0).pos.y) ∧
    ((Ball.integrate ⟨⟨1/2, -1/4⟩, ⟨26/100, -23/100⟩⟩ 0).wallBounce).vel.y =
        -((Ball.integrate ⟨⟨1/2, -1/4⟩, ⟨26/100, -23/100⟩⟩ 0).vel.y) :=
  (C6_wall_reflection ⟨⟨1/2, -1/4⟩, ⟨26/100, -23/100⟩⟩ 0 (Paddle.new 0 (1/2))
    (Paddle.new 1 (1/2))).1
    (by norm_num [Ball.integrate])

/-- C7: whenever the paddle-hit condition of ball.rs holds, the computed
angle lies within [-1, 1], the table index round (angle * 3) + 3 lies
within 0..6, and the selected new vertical velocity is one of the seven
entries of Velocity.VALID_Y. -/
theorem C7_index_in_bounds (ballY paddleY : ℚ)
    (h1 : paddleY - Paddle.HEIGHT / 2 < ballY) (h2 : ballY < paddleY + Paddle.HEIGHT / 2) :
    (-1 ≤ bounceAngle ballY paddleY ∧ bounceAngle ballY paddleY ≤ 1) ∧
    (0 ≤ bounceIndex ballY paddleY ∧ bounceIndex ballY paddleY ≤ 6) ∧
    bounceVelY ballY paddleY ∈ Velocity.VALID_Y := by
  have hH : (0 : ℚ) < Paddle.HEIGHT / 2 := by norm_num [Paddle.HEIGHT]
  have ha1 : bounceAngle ballY paddleY < 1 := by
    rw [bounceAngle, div_lt_one hH]
    linarith
  have ha2 : -1 < bounceAngle ballY paddleY := by
    rw [bounceAngle, lt_div_iff₀ hH]
    linarith
  obtain ⟨hi0, hi6⟩ := bounceIndex_bounds ballY paddleY h1 h2
  refine ⟨⟨le_of_lt ha2, le_of_lt ha1⟩, ⟨hi0, hi6⟩, ?_⟩
  unfold bounceVelY
  have hn : (bounceIndex ballY paddleY).toNat ≤ 6 := by omega
  set n := (bounceIndex ballY paddleY).toNat with hdef
  clear_value n
  interval_cases n <;> simp [Velocity.VALID_Y]

/-- C7 witness: the centered hit has angle 0, index 3 and vertical velocity
0, a member of the table. -/
theorem C7_witness :
    (-1 ≤ bounceAngle (1/2) (1/2) ∧ bounceAngle (1/2) (1/2) ≤ 1) ∧
    (0 ≤ bounceIndex (1/2) (1/2) ∧ bounceIndex (1/2) (1/2) ≤ 6) ∧
    bounceVelY (1/2) (1/2) ∈ Velocity.VALID_Y :=
  C7_index_in_bounds (1/2) (1/2) (by norm_num [Paddle.HEIGHT]) (by norm_num [Paddle.HEIGHT])

/-- C5 counterexample: a ball whose post-integration position is exactly
(0, 0.5), with the left paddle centered at y = 0.5, is NOT bounced: the
left branch of the paddle bounce in ball.rs requires pos.x < 0 strictly, so
at pos.x = 0 the update leaves the ball unchanged and the horizontal
velocity is not flipped. -/
theorem C5_counterexample :
    Ball.update ⟨⟨0, 1/2⟩, ⟨26/100, -23/100⟩⟩ 0 (Paddle.new 0 (1/2)) (Paddle.new 1 (1/2)) =
      ⟨⟨0, 1/2⟩, ⟨26/100, -23/100⟩⟩ ∧
    ¬(Ball.update ⟨⟨0, 1/2⟩, ⟨26/100, -23/100⟩⟩ 0 (Paddle.new 0 (1/2))
        (Paddle.new 1 (1/2))).vel.x = -(26/100) := by
  have h : Ball.update ⟨⟨0, 1/2⟩, ⟨26/100, -23/100⟩⟩ 0 (Paddle.new 0 (1/2)) (Paddle.new 1 (1/2)) =
      ⟨⟨0, 1/2⟩, ⟨26/100, -23/100⟩⟩ := by
    norm_num [Ball.update, Ball.integrate, Ball.wallBounce, Ball.paddleBounce, paddleHit,
      Paddle.new, Paddle.HEIGHT]
  refine ⟨h, ?_⟩
  rw [h]
  norm_num

/-- C5 amended: if after the integration step the ball is at (x, 0.5) with
x < 0 strictly, and the left paddle is centered at y = 0.5, then the
left-paddle bounce triggers: the sign of vel.x flips and the new vel.y
selected from the table is 0 (table index 3). -/
theorem C5_left_bounce (b : Ball) (dt : ℚ) (p2 : Paddle)
    (hx : (b.integrate dt).pos.x < 0) (hy : (b.integrate dt).pos.y = 1/2) :
    (b.update dt (Paddle.new 0 (1/2)) p2).vel.x = -b.vel.x ∧
    (b.update dt (Paddle.new 0 (1/2)) p2).vel.y = 0 ∧
    bounceIndex (1/2) (1/2) = 3 := by
  have hmid : (b.integrate dt).wallBounce = b.integrate dt :=
    Ball.wallBounce_of_mid _ (by rw [hy]; norm_num) (by rw [hy]; norm_num)
  have hhit : paddleHit (Paddle.new 0 (1/2)) (b.integrate dt).pos.y := by
    rw [hy]
    constructor <;> norm_num [Paddle.new, Paddle.HEIGHT]
  have hb : b.update dt (Paddle.new 0 (1/2)) p2 =
      ⟨⟨-(b.integrate dt).pos.x, (b.integrate dt).pos.y⟩,
        ⟨-(b.integrate dt).vel.x,
          bounceVelY (b.integrate dt).pos.y ((Paddle.new 0 (1/2)).pos.y)⟩⟩ := by
    rw [Ball.update, hmid, Ball.paddleBounce_left _ _ _ hx hhit]
  have hidx : bounceIndex (1/2) (1/2) = 3 := by
    norm_num [bounceIndex, bounceAngle, roundHalfAway, Paddle.HEIGHT]
  have hpy : (Paddle.new 0 (1/2)).pos.y = 1/2 := rfl
  have hvy : bounceVelY (1/2) ((Paddle.new 0 (1/2)).pos.y) = 0 := by
    rw [bounceVelY, hpy, hidx]
    have h3 : Int.toNat 3 = 3 := rfl
    rw [h3]
    norm_num [Velocity.VALID_Y]
  rw [hb, hy]
  exact ⟨rfl, hvy, hidx⟩

/-- C5 witness: a ball integrated to (-1/100, 1/2) against the centered
left paddle has its horizontal velocity flipped and vertical velocity set
to 0. -/
theorem C5_witness :
    (Ball.update ⟨⟨-1/100, 1/2⟩, ⟨26/100, 5⟩⟩ 0 (Paddle.new 0 (1/2))
      (Paddle.new 1 (1/2))).vel.x = -(26/100 : ℚ) ∧
    (Ball.update ⟨⟨-1/100, 1/2⟩, ⟨26/100, 5⟩⟩ 0 (Paddle.new 0 (1/2))
      (Paddle.new 1 (1/2))).vel.y = 0 := by
  have h := C5_left_bounce ⟨⟨-1/100, 1/2⟩, ⟨26/100, 5⟩⟩ 0 (Paddle.new 1 (1/2))
    (by norm_num [Ball.integrate]) (by norm_num [Ball.integrate])
  exact ⟨h.1, h.2.1⟩

/-- C1: for every tick in which Game.update runs the physics step, if
afterwards the ball is at x < 0 then the right-seat score (the second
component) is incremented by exactly 1 while the left-seat score is
unchanged and serve is called (serve instant recorded, last_update
cleared, ball recentered); symmetrically for x > 1; at most one of the two
scoring branches fires, and when neither fires the score and the serve
timer are untouched. -/
theorem C1_scoring (g : Game) (now : ℚ) (h : g.serveHold now = false) :
    ((g.tickBall now).pos.x < 0 →
      (g.update now).score.1 = g.score.1 ∧ (g.update now).score.2 = g.score.2 + 1 ∧
      (g.update now).serve_time = some now ∧ (g.update now).last_update = none ∧
      (g.update now).ball.pos = Point.CENTER) ∧
    ((g.tickBall now).pos.x > 1 →
      (g.update now).score.1 = g.score.1 + 1 ∧ (g.update now).score.2 = g.score.2 ∧
      (g.update now).serve_time = some now ∧ (g.update now).last_update = none ∧
      (g.update now).ball.pos = Point.CENTER) ∧
    ¬((g.tickBall now).pos.x < 0 ∧ (g.tickBall now).pos.x > 1) ∧
    (¬(g.tickBall now).pos.x < 0 → ¬(g.tickBall now).pos.x > 1 →
      (g.update now).score = g.score ∧ (g.update now).serve_time = g.serve_time) := by
  rw [Game.update, h]
  simp only [Bool.false_eq_true, if_false]
  refine ⟨fun hx => ?_, fun hx => ?_, fun hx => by linarith [hx.1, hx.2], fun h1 h2 => ?_⟩
  · rw [if_pos hx]
    exact ⟨rfl, rfl, rfl, rfl, rfl⟩
  · rw [if_neg (by linarith), if_pos hx]
    exact ⟨rfl, rfl, rfl, rfl, rfl⟩
  · rw [if_neg h1, if_neg h2]
    exact ⟨rfl, rfl⟩

/-- C1 witness: a tick that carries the ball past x = 0 awards the point to
the right seat only. -/
theorem C1_witness :
    (Game.update
      { ball := ⟨⟨1/2, 1/2⟩, ⟨-26/100, 0⟩⟩
        left_paddle := Paddle.new 0 (9/10)
        right_paddle := Paddle.new 1 (1/2)
        score := (0, 0)
        serve_time := some 0
        last_update := some 0
        clients := (none, none) } 2).score.1 = 0 ∧
    (Game.update
      { ball := ⟨⟨1/2, 1/2⟩, ⟨-26/100, 0⟩⟩
        left_paddle := Paddle.new 0 (9/10)
        right_paddle := Paddle.new 1 (1/2)
        score := (0, 0)
        serve_time := some 0
        last_update := some 0
        clients := (none, none) } 2).score.2 = 0 + 1 := by
  have h := C1_scoring
    { ball := ⟨⟨1/2, 1/2⟩, ⟨-26/100, 0⟩⟩
      left_paddle := Paddle.new 0 (9/10)
      right_paddle := Paddle.new 1 (1/2)
      score := (0, 0)
      serve_time := some 0
      last_update := some 0
      clients := (none, none) } 2
    (by norm_num [Game.serveHold, Game.SERVE_DURATION])
  have hx := h.1 (by
    norm_num [Game.tickBall, Game.tickDt, Ball.update, Ball.integrate, Ball.wallBounce,
      Ball.paddleBounce, paddleHit, Paddle.new, Paddle.HEIGHT])
  exact ⟨hx.1, hx.2.1⟩

/-- C2: connect_player assigns the first empty seat, seat 0 before seat 1;
from an empty registry the first connect takes seat 0 (no serve yet), a
second connect with a distinct id takes seat 1 and exactly then the score
resets to (0,0) and the ball is served; a third connect while both seats
are occupied fails with the Game is full error and leaves the entire game
state unchanged. -/
theorem C2_seat_assignment (a b c : ℕ) (_hab : a ≠ b) (t1 t2 t3 : ℚ) :
    (Game.new.connect_player a t1).2 = .ok () ∧
    (Game.new.connect_player a t1).1.clients = (some a, none) ∧
    (Game.new.connect_player a t1).1.serve_time = none ∧
    (Game.new.connect_player a t1).1.score = (0, 0) ∧
    ((Game.new.connect_player a t1).1.connect_player b t2).2 = .ok () ∧
    ((Game.new.connect_player a t1).1.connect_player b t2).1.clients = (some a, some b) ∧
    ((Game.new.connect_player a t1).1.connect_player b t2).1.score = (0, 0) ∧
    ((Game.new.connect_player a t1).1.connect_player b t2).1.serve_time = some t2 ∧
    ((Game.new.connect_player a t1).1.connect_player b t2).1.last_update = none ∧
    ((Game.new.connect_player a t1).1.connect_player b t2).1.ball.pos = Point.CENTER ∧
    (((Game.new.connect_player a t1).1.connect_player b t2).1.connect_player c t3).2 =
      .error "Game is full" ∧
    (((Game.new.connect_player a t1).1.connect_player b t2).1.connect_player c t3).1 =
      ((Game.new.connect_player a t1).1.connect_player b t2).1 :=
  ⟨rfl, rfl, rfl, rfl, rfl, rfl, rfl, rfl, rfl, rfl, rfl, rfl⟩

/-- C2 witness: ids 1, 2, 3 at times 0, 5, 9. -/
theorem C2_witness :
    (Game.new.connect_player 1 0).1.clients = (some 1, none) ∧
    ((Game.new.connect_player 1 0).1.connect_player 2 5).1.clients = (some 1, some 2) ∧
    ((Game.new.connect_player 1 0).1.connect_player 2 5).1.serve_time = some 5 ∧
    (((Game.new.connect_player 1 0).1.connect_player 2 5).1.connect_player 3 9).2 =
      .error "Game is full" :=
  have h := C2_seat_assignment 1 2 3 (by decide) 0 5 9
  ⟨h.2.1, h.2.2.2.2.2.1, h.2.2.2.2.2.2.2.1, h.2.2.2.2.2.2.2.2.2.2.1⟩

/-- A ball resting at the center does not move, bounce or score under a
zero delta-time update. -/
theorem Ball.update_center_zero (v : Velocity) (p1 p2 : Paddle) :
    Ball.update ⟨Point.CENTER, v⟩ 0 p1 p2 = ⟨Point.CENTER, v⟩ := by
  have hint : Ball.integrate ⟨Point.CENTER, v⟩ 0 = ⟨Point.CENTER, v⟩ := by
    simp [Ball.integrate, Point.CENTER]
  rw [Ball.update, hint,
    Ball.wallBounce_of_mid _ (by norm_num [Point.CENTER]) (by norm_num [Point.CENTER])]
  rw [Ball.paddleBounce]
  rw [if_neg (by norm_num [Point.CENTER]),
    if_neg (by rintro ⟨hgt, -⟩; norm_num [Point.CENTER] at hgt)]

/-- C3: serve resets the ball position to the center while leaving the ball
velocity, both paddles, the score and the seats unchanged; it records the
serve instant and clears last_update, so every update strictly inside the
1500 ms hold changes nothing at all, the post-hold delta time is zero, and
the first update after the hold leaves the ball at the center with its
velocity intact. -/
theorem C3_serve_and_hold (g : Game) (now : ℚ) :
    (g.serve now).ball.pos = Point.CENTER ∧
    (g.serve now).ball.vel = g.ball.vel ∧
    (g.serve now).left_paddle = g.left_paddle ∧
    (g.serve now).right_paddle = g.right_paddle ∧
    (g.serve now).score = g.score ∧
    (g.serve now).clients = g.clients ∧
    (g.serve now).serve_time = some now ∧
    (g.serve now).last_update = none ∧
    (∀ t : ℚ, t - now < Game.SERVE_DURATION → (g.serve now).update t = g.serve now) ∧
    (∀ t : ℚ, (g.serve now).tickDt t = 0) ∧
    (∀ t : ℚ, ¬t - now < Game.SERVE_DURATION →
      ((g.serve now).update t).ball.pos = Point.CENTER ∧
      ((g.serve now).update t).ball.vel = g.ball.vel) := by
  refine ⟨rfl, rfl, rfl, rfl, rfl, rfl, rfl, rfl, fun t ht => ?_, fun t => rfl, fun t ht => ?_⟩
  · simp [Game.update, Game.serveHold, Game.serve, ht]
  · have hsh : (g.serve now).serveHold t = false := by
      simp [Game.serveHold, Game.serve, ht]
    have hball : (g.serve now).tickBall t = ⟨Point.CENTER, g.ball.vel⟩ := by
      show Ball.update ⟨Point.CENTER, g.ball.vel⟩ 0 g.left_paddle g.right_paddle =
        ⟨Point.CENTER, g.ball.vel⟩
      exact Ball.update_center_zero g.ball.vel g.left_paddle g.right_paddle
    rw [Game.update, hsh]
    simp only [Bool.false_eq_true, if_false]
    rw [hball]
    norm_num [Point.CENTER]

/-- C3 witness: serving the fresh game at time 0, the update at time 1 is a
no-op and the update at time 2 keeps the ball at the center. -/
theorem C3_witness :
    ((Game.new.serve 0).update 1 = Game.new.serve 0) ∧
    ((Game.new.serve 0).update 2).ball.pos = Point.CENTER ∧
    (Game.new.serve 0).ball.vel = Game.new.ball.vel :=
  have h := C3_serve_and_hold Game.new 0
  ⟨h.2.2.2.2.2.2.2.2.1 1 (by norm_num [Game.SERVE_DURATION]),
   (h.2.2.2.2.2.2.2.2.2.2 2 (by norm_num [Game.SERVE_DURATION])).1,
   h.2.1⟩

/-- C10: connect_player does not require the connecting identity to be
distinct from an already-seated one: if seat 0 holds c and seat 1 is empty,
then connect_player c succeeds and assigns c to seat 1 as well, the match
is immediately reset to (0,0) and served, and the move calls of such a
doubly seated connection route to seat 0 first, moving only the left
paddle. -/
theorem C10_same_id_both_seats (c : ℕ) (g : Game) (now : ℚ)
    (h0 : g.clients.1 = some c) (h1 : g.clients.2 = none) :
    (g.connect_player c now).2 = .ok () ∧
    (g.connect_player c now).1.clients = (some c, some c) ∧
    (g.connect_player c now).1.score = (0, 0) ∧
    (g.connect_player c now).1.serve_time = some now ∧
    (g.connect_player c now).1.last_update = none ∧
    (g.connect_player c now).1.ball.pos = Point.CENTER ∧
    (∀ g' : Game, g'.clients = (some c, some c) →
      (g'.move_up c).left_paddle = g'.left_paddle.move_up ∧
      (g'.move_up c).right_paddle = g'.right_paddle ∧
      (g'.move_down c).left_paddle = g'.left_paddle.move_down ∧
      (g'.move_down c).right_paddle = g'.right_paddle) := by
  obtain ⟨ball, lp, rp, sc, st, lu, cl⟩ := g
  obtain ⟨cl1, cl2⟩ := cl
  simp only at h0 h1
  subst h0 h1
  refine ⟨rfl, rfl, rfl, rfl, rfl, rfl, fun g' hg' => ?_⟩
  have h1' : g'.clients.1 = some c := by rw [hg']
  simp [Game.move_up, Game.move_down, h1']

/-- C10 witness: id 5 seated alone in seat 0 connects again and fills seat
1 with the same id. -/
theorem C10_witness :
    (({ Game.new with clients := (some 5, none) } : Game).connect_player 5 0).2 = .ok () ∧
    (({ Game.new with clients := (some 5, none) } : Game).connect_player 5 0).1.clients =
      (some 5, some 5) :=
  have h := C10_same_id_both_seats 5 { Game.new with clients := (some 5, none) } 0 rfl rfl
  ⟨h.1, h.2.1⟩

/-- A pass of the tick loop over all-successful draw outcomes attempts every
target and survives. -/
theorem tickDraw_all_true (outs : List Bool) (h : ∀ x ∈ outs, x = true) :
    tickDraw outs = (outs.length, true) := by
  induction outs with
  | nil => rfl
  | cons a rest ih =>
    have ha : a = true := h a (List.mem_cons_self a rest)
    subst ha
    rw [tickDraw, ih (fun x hx => h x (List.mem_cons_of_mem _ hx))]
    simp

/-- A pass of the tick loop stops at the first failing draw: the targets
before it plus the failing one are attempted, nothing after. -/
theorem tickDraw_first_failure (pre post : List Bool) (hpre : ∀ x ∈ pre, x = true) :
    tickDraw (pre ++ false :: post) = (pre.length + 1, false) := by
  induction pre with
  | nil => simp [tickDraw]
  | cons a rest ih =>
    have ha : a = true := hpre a (List.mem_cons_self a rest)
    subst ha
    rw [List.cons_append, tickDraw, ih (fun x hx => hpre x (List.mem_cons_of_mem _ hx))]
    simp

/-- C8 counterexample: with two attached targets whose first draw fails,
the draw is not attempted on the remaining target and the tick task does
not continue, contradicting the claim that a draw failure is caught and
never propagated to the scheduler. -/
theorem C8_counterexample :
    ¬((tickDraw [false, true]).1 = 2 ∧ (tickDraw [false, true]).2 = true) := by decide

/-- C8 amended: the tick loop of server.rs unwraps each draw result, so a
draw failure panics the tick task: the draws before the first failure and
the failing draw itself are the only ones attempted, the task does not
survive the pass, and only when every draw succeeds are all targets drawn
and the loop continued. -/
theorem C8_tick_draw_aborts (pre post : List Bool) (hpre : ∀ x ∈ pre, x = true) :
    (tickDraw (pre ++ false :: post)).1 = pre.length + 1 ∧
    (tickDraw (pre ++ false :: post)).2 = false ∧
    (∀ outs : List Bool, (∀ x ∈ outs, x = true) →
      (tickDraw outs).1 = outs.length ∧ (tickDraw outs).2 = true) := by
  rw [tickDraw_first_failure pre post hpre]
  refine ⟨rfl, rfl, fun outs h => ?_⟩
  rw [tickDraw_all_true outs h]
  exact ⟨rfl, rfl⟩

/-- C8 witness: one successful target, then a failing one, then one more:
two draw attempts, and the tick task dies. -/
theorem C8_witness :
    (tickDraw ([true] ++ false :: [true])).1 = 2 ∧
    (tickDraw ([true] ++ false :: [true])).2 = false :=
  have h := C8_tick_draw_aborts [true] [true] (by decide)
  ⟨h.1, h.2.1⟩

/-- C9 counterexample: the quit keys recognised by events.rs (Ctrl-c,
Ctrl-q, plain Esc — bytes 3, 17, 27) are NOT routed to a channel close by
the data handler of server.rs: they fall to the wildcard arm and are
ignored, while the byte q (113) is what closes the channel. -/
theorem C9_counterexample :
    is_quit_key .esc .NONE = true ∧
    is_quit_key (.char 'c') .CONTROL = true ∧
    is_quit_key (.char 'q') .CONTROL = true ∧
    dataAction [27] = .ignore ∧ ¬dataAction [27] = .closeChannel ∧
    dataAction [3] = .ignore ∧
    dataAction [17] = .ignore ∧
    dataAction [113] = .closeChannel := by decide

/-- C9 amended: the data handler maps each inbound byte string
independently of other state: w moves the seat bound to the sending
connection up, s moves it down, the plain byte q closes only that channel
with no effect on the game, and every other byte string — including the
Ctrl-C, Ctrl-Q and Esc bytes — is silently ignored; an unseated sender
moves nothing. -/
theorem C9_router (g : Game) (cid : ℕ) (data : List ℕ)
    (hq : data ≠ [113]) (hw : data ≠ [119]) (hs : data ≠ [115]) :
    dataAction [119] = .gameMoveUp ∧
    dataAction [115] = .gameMoveDown ∧
    dataAction [113] = .closeChannel ∧
    dataAction data = .ignore ∧
    dataGameEffect g cid data = g ∧
    dataGameEffect g cid [113] = g ∧
    dataGameEffect g cid [119] = g.move_up cid ∧
    dataGameEffect g cid [115] = g.move_down cid ∧
    (g.clients.1 = some cid →
      (g.move_up cid).left_paddle = g.left_paddle.move_up ∧
      (g.move_up cid).right_paddle = g.right_paddle) ∧
    (g.clients.1 ≠ some cid → g.clients.2 ≠ some cid →
      g.move_up cid = g ∧ g.move_down cid = g) := by
  have hda : dataAction data = .ignore := by
    rw [dataAction, if_neg hq, if_neg hw, if_neg hs]
  refine ⟨rfl, rfl, rfl, hda, ?_, rfl, rfl, rfl, fun h => ?_, fun h1 h2 => ?_⟩
  · rw [dataGameEffect, hda]
  · simp [Game.move_up, h]
  · simp [Game.move_up, Game.move_down, h1, h2]

/-- C9 witness: the Esc byte is ignored and leaves the fresh game
unchanged. -/
theorem C9_witness :
    dataAction [27] = .ignore ∧ dataGameEffect Game.new 0 [27] = Game.new :=
  have h := C9_router Game.new 0 [27] (by decide) (by decide) (by decide)
  ⟨h.2.2.2.1, h.2.2.2.2.1⟩

end Pong
